import Mathlib

/-!
Verification of the surrealdb-rpc data-model and wire-codec layer.

This file is a shallow embedding of the repository's Python core:

* `src/surrealdb_rpc/data_model/thing.py` — the `Thing`/`Table`/`RecordId`
  hierarchy (the effective implementation: the `data_model` package shadows
  the flat `data_model.py` module);
* `src/surrealdb_rpc/data_model.py` — the flat duplicate, used here as the
  source for `String`/`EscapedString` (duplicating the package's missing
  `string.py`) and for `Duration` (duplicating the missing `ext_types.py`);
* `src/surrealdb_rpc/data_model/record_id.py` — the one-argument
  `RecordId.new` variant (called `RecordIdV2` below);
* `src/surrealdb_rpc/serialization/msgpack.py` — the extension-tag codec.

Python strings are modelled as `PyStr`: either a plain `str` or an
`EscapedString` (a `UserString` subclass, hence NOT an instance of `str`);
both carry their full text.  Character classification (`isalnum`,
`isnumeric`) is modelled at its ASCII behaviour, on which Python and this
model agree for every character the claims exercise (ASCII text, digits,
and the delimiter characters `⟨`, `⟩`, backtick).  Functions that may emit
a `warnings.warn` diagnostic return the warning as a `Bool` alongside the
value.  Fallible code returns `Except PyErr`.
-/

/-- Python exception outcomes raised by the modelled code.  Constructors
are finer than Python's class hierarchy where the source raises distinct
messages. -/
inductive PyErr where
  /-- `InvalidRecordId` raised by the default case of `RecordId.new` in
  `thing.py`. -/
  | invalidRecordId
  /-- `InvalidRecordIdString` raised by `RecordId.from_str`. -/
  | invalidRecordIdString
  /-- `InvalidRecordIdType` raised by `record_id.py`'s `RecordId.new`. -/
  | invalidRecordIdType
  /-- `TypeError: Can't instantiate abstract class ...` — raised when
  instantiating a subclass that does not override an `@abstractmethod`. -/
  | typeErrorAbstract
  /-- `AttributeError` — attribute lookup on an object lacking it. -/
  | attributeError
  /-- `NotImplementedError` (raised by `pack_record_id`'s default case and
  by `Duration.from_str` for a `y` suffix). -/
  | notImplementedError
  /-- `ValueError` from `int(...)` on a non-numeric string. -/
  | valueErrorInt
  /-- `ValueError` from unpacking a list that does not have exactly two
  elements into two names. -/
  | valueErrorUnpack
  /-- `ValueError: Unknown msgpack extension code` from `msgpack_decode`. -/
  | unknownExtensionCode
  deriving DecidableEq, Repr

/-- A Python string value of the data model: a plain `str`, or an
`EscapedString` instance (a `UserString` subclass — NOT a `str` instance).
Both constructors carry the full character data. -/
inductive PyStr where
  | plain (s : String)
  | escapedString (s : String)
  deriving DecidableEq, Repr

/-- The character data of a `PyStr` (the `UserString.data` attribute, or
the `str` itself). -/
def PyStr.data : PyStr → String
  | .plain s => s
  | .escapedString s => s

/-- `s and c == '_'` classification of `String._is_simple_char`: Python's
`c.isalnum() or c == "_"`, modelled at its ASCII behaviour. -/
def is_simple_char (c : Char) : Bool :=
  c.isAlphanum || c == '_'

/-- `String.is_simple`: `all(map(String._is_simple_char, s))`.  The empty
string is simple. -/
def is_simple (s : String) : Bool :=
  s.data.all is_simple_char

/-- Python `str.isnumeric()` modelled at its ASCII behaviour: nonempty and
every character a decimal digit. -/
def pyIsNumeric (s : String) : Bool :=
  !s.data.isEmpty && s.data.all Char.isDigit

/-- Python `s.startswith(c)` for a one-character needle. -/
def pyStartsWithChar (s : String) (c : Char) : Bool :=
  s.data.head? == some c

/-- Python `s.endswith(c)` for a one-character needle. -/
def pyEndsWithChar (s : String) (c : Char) : Bool :=
  s.data.getLast? == some c

/-- The backtick character (written via its code point to keep it out of
the source text). -/
def backtickChar : Char := Char.ofNat 96

/-- The backtick as a one-character string. -/
def backtickStr : String := String.mk [backtickChar]

/-- `EscapedString.angle` (`data_model.py`, lines 81-89): wraps a plain
string in `⟨…⟩` and returns an `EscapedString`; warns first when the plain
input already starts with `⟨` and ends with `⟩`; an input that is already
an `EscapedString` instance is returned unchanged with no warning.  The
second component is the warning flag. -/
def EscapedString.angle : PyStr → PyStr × Bool
  | .plain s =>
      (.escapedString ("⟨" ++ s ++ "⟩"), pyStartsWithChar s '⟨' && pyEndsWithChar s '⟩')
  | .escapedString s => (.escapedString s, false)

/-- `EscapedString.backtick` (`data_model.py`, lines 91-99): the backtick
analogue of `EscapedString.angle`. -/
def EscapedString.backtick : PyStr → PyStr × Bool
  | .plain s =>
      (.escapedString (backtickStr ++ s ++ backtickStr),
       pyStartsWithChar s backtickChar && pyEndsWithChar s backtickChar)
  | .escapedString s => (.escapedString s, false)

/-- `String.auto_escape` (`data_model.py`, lines 15-29): simple strings are
returned unchanged; non-simple strings are wrapped by
`EscapedString.backtick` when `use_backtick` else `EscapedString.angle`.
Returns the value and the warning flag. -/
def auto_escape (s : PyStr) (use_backtick : Bool) : PyStr × Bool :=
  if is_simple s.data then (s, false)
  else if use_backtick then EscapedString.backtick s else EscapedString.angle s

/-- `String.auto_quote` (`data_model.py`, lines 31-45): like `auto_escape`,
but a simple string is wrapped in double quotes (producing a plain `str`). -/
def auto_quote (s : PyStr) (use_backtick : Bool) : PyStr × Bool :=
  if is_simple s.data then (.plain ("\"" ++ s.data ++ "\""), false)
  else if use_backtick then EscapedString.backtick s else EscapedString.angle s

/-- Whether the character list `sep` is a prefix of `s` (Boolean, by
character equality). -/
def isPrefixOfList : List Char → List Char → Bool
  | [], _ => true
  | _ :: _, [] => false
  | a :: as, b :: bs => a == b && isPrefixOfList as bs

/-- Python substring membership `sep in s` over character lists (for a
nonempty needle this is occurrence anywhere; the empty needle is contained
in everything, matching Python). -/
def pyContainsList (sep : List Char) : List Char → Bool
  | [] => sep.isEmpty
  | c :: rest => isPrefixOfList sep (c :: rest) || pyContainsList sep rest

/-- Python `sep in s` on strings. -/
def pyContains (s sep : String) : Bool :=
  pyContainsList sep.data s.data

/-- Worker for Python `s.split(sep, maxsplit=1)`: scans left to right and
splits at the first occurrence of `sep`.  `fuel` is an upper bound on the
scan length (instantiated with `s.length`, so the `fuel = 0` fallback is
never reached on the wrapper's inputs). -/
def pySplit1Aux (sep : List Char) : List Char → Nat → List Char → List (List Char)
  | acc, _, [] => [acc.reverse]
  | acc, 0, s => [acc.reverse ++ s]
  | acc, fuel + 1, c :: rest =>
      if isPrefixOfList sep (c :: rest) then
        [acc.reverse, List.drop sep.length (c :: rest)]
      else
        pySplit1Aux sep (c :: acc) fuel rest

/-- Python `s.split(sep, maxsplit=1)` for a nonempty separator. -/
def pySplitMax1 (s sep : String) : List String :=
  (pySplit1Aux sep.data [] s.data.length s.data).map String.mk

/-- Worker for Python `s.split(sep)` (no maxsplit): left-to-right,
non-overlapping. -/
def pySplitAux (sep : List Char) : List Char → Nat → List Char → List (List Char)
  | acc, _, [] => [acc.reverse]
  | acc, 0, s => [acc.reverse ++ s]
  | acc, fuel + 1, c :: rest =>
      if isPrefixOfList sep (c :: rest) then
        acc.reverse :: pySplitAux sep [] fuel (List.drop sep.length (c :: rest))
      else
        pySplitAux sep (c :: acc) fuel rest

/-- Python `s.split(sep)` for a nonempty separator. -/
def pySplit (s sep : String) : List String :=
  (pySplitAux sep.data [] s.data.length s.data).map String.mk

/-- Python `s.removesuffix(t)`. -/
def pyRemoveSuffix (s t : String) : String :=
  if isPrefixOfList t.data.reverse s.data.reverse then
    String.mk (s.data.take (s.data.length - t.data.length))
  else s

/-- Value of a digit list read in base 10. -/
def digitsToNat (ds : List Char) : Nat :=
  ds.foldl (fun a c => a * 10 + (c.toNat - 48)) 0

/-- Digits-only core of Python `int(...)`. -/
def pyIntCore (ds : List Char) : Except PyErr Int :=
  if !ds.isEmpty && ds.all Char.isDigit then .ok (Int.ofNat (digitsToNat ds))
  else .error .valueErrorInt

/-- Python `int(s)`: optional sign followed by digits, `ValueError`
otherwise.  (Python also strips whitespace and allows `_` separators;
neither form arises in this code base.) -/
def pyInt (s : String) : Except PyErr Int :=
  match s.data with
  | '-' :: rest => (pyIntCore rest).map (fun n => -n)
  | '+' :: rest => pyIntCore rest
  | ds => pyIntCore ds

/-- A Python runtime value as supplied to `RecordId.new` / stored as a
record id.  `vFloat` carries no payload: the modelled code never inspects
a float's numeric value (floats are rejected at construction).  Dictionary
keys are modelled as strings, the only key shape the code exercises. -/
inductive PyValue where
  | vNone
  | vBool (b : Bool)
  | vInt (i : Int)
  | vFloat
  | vStr (s : String)
  | vEscapedString (s : String)
  | vList (xs : List PyValue)
  | vTuple (xs : List PyValue)
  | vDict (entries : List (String × PyValue))
  deriving Repr

/-- Kind tag of the four `RecordId` subclasses of `thing.py`. -/
inductive RecordIdKind where
  | text
  | numeric
  | array
  | object
  deriving DecidableEq, Repr

/-- A `thing.py` `RecordId` instance: its concrete subclass (`kind`), the
`table` attribute (already escaped, per `Table.__init__`), and the `id`
attribute. -/
structure RecordIdObj where
  kind : RecordIdKind
  table : PyStr
  id : PyValue
  deriving Repr

/-- A `thing.py` `Table` instance (the `table` attribute, already escaped). -/
structure Table where
  table : PyStr
  deriving Repr

/-- The result of `Thing.from_str`: either a `Table` or a `RecordId`. -/
inductive ThingVal where
  | tbl (t : Table)
  | rid (r : RecordIdObj)
  deriving Repr

/-- The escaped table attribute computed by `Table.__init__` from a raw
name: `String.auto_escape(table)` (the warning diagnostic is dropped). -/
def table_escape (t : String) : PyStr :=
  (auto_escape (.plain t) false).fst

/-- `Table.__init__` from a raw string name (`thing.py`, lines 105-110). -/
def Table.new (t : String) : Table :=
  ⟨table_escape t⟩

/-- `RecordId.new` (`thing.py`, lines 175-219).  The match mirrors the
Python `match`/`isinstance` chain: `str` first (an `EscapedString` is a
`UserString`, NOT a `str` instance, so it falls through), then `int`
(which `bool` satisfies), then `list | tuple`, then `dict`.  The `int`,
`bool`, `list` and `tuple` arms instantiate `NumericRecordId` resp.
`ArrayRecordId` — but neither class overrides the `@abstractmethod
__pack_id__` declared on `RecordId`, so both classes are abstract and
instantiation raises `TypeError`. -/
def RecordId.new (table : String) (id : PyValue) : Except PyErr RecordIdObj :=
  match id with
  | .vStr s => .ok ⟨.text, table_escape table, .vStr s⟩
  | .vBool _ => .error .typeErrorAbstract
  | .vInt _ => .error .typeErrorAbstract
  | .vList _ => .error .typeErrorAbstract
  | .vTuple _ => .error .typeErrorAbstract
  | .vDict es => .ok ⟨.object, table_escape table, .vDict es⟩
  | _ => .error .invalidRecordId

/-- `is_record_id_str` (`thing.py`, lines 26-32): split on the first colon
and require two nonempty sides (Python's `return table and id`
truthiness). -/
def is_record_id_str (string : String) : Bool :=
  match pySplitMax1 string ":" with
  | [table, id] => !table.isEmpty && !id.isEmpty
  | _ => false

/-- `RecordId.from_str` (`thing.py`, lines 161-173): split on the first
colon (`maxsplit=1`); a two-element result — empty sides included — is
passed to `RecordId.new`; otherwise `InvalidRecordIdString`.  With
`escaped=True` the id side is wrapped in `EscapedString` (which
`RecordId.new` then rejects, since an `EscapedString` is not a `str`). -/
def RecordId.from_str (string : String) (escaped : Bool) : Except PyErr RecordIdObj :=
  match pySplitMax1 string ":" with
  | [table, id] =>
      RecordId.new table (if escaped then .vEscapedString id else .vStr id)
  | _ => .error .invalidRecordIdString

/-- `Thing.from_str` (`thing.py`, lines 67-73): a string containing a
colon anywhere (no delimiter awareness) parses as a `RecordId`, otherwise
as a `Table`.  The `escaped` flag is accepted but NOT forwarded — the body
calls `RecordId.from_str(s)` with its default `escaped=False`. -/
def Thing.from_str (s : String) (escaped : Bool) : Except PyErr ThingVal :=
  if pyContains s ":" then (RecordId.from_str s false).map ThingVal.rid
  else .ok (.tbl (Table.new s))

/-- Python `str(...)` on the scalar shapes that reach it in this code
base. -/
def pyStrOfValue : PyValue → String
  | .vStr s => s
  | .vEscapedString s => s
  | .vInt i => toString i
  | .vBool b => if b then "True" else "False"
  | .vNone => "None"
  | _ => ""

mutual

/-- `pack_record_id` (`thing.py`, lines 268-302): the recursive value
literal formatter.  Strings are `auto_quote(s, True)` when `quote` else
`auto_escape(s)`; ints (including bools, via `str(...)`) print decimally;
sequences bracket comma-joined recursive calls with `quote=True`; mappings
brace-join `auto_escape(k, True) + ":" + pack_record_id(v, True)`; any
other shape (None, float, `EscapedString`) raises `NotImplementedError`.
Nested `RecordId` values (the `case rid` arm) are not modelled: no
modelled `PyValue` constructor embeds a `RecordId` object. -/
def pack_record_id (value : PyValue) (quote : Bool) : Except PyErr String :=
  match value with
  | .vStr s =>
      .ok (if quote then (auto_quote (.plain s) true).fst.data
           else (auto_escape (.plain s) false).fst.data)
  | .vBool b => .ok (pyStrOfValue (.vBool b))
  | .vInt i => .ok (pyStrOfValue (.vInt i))
  | .vList xs =>
      (pack_record_id_list xs).map (fun parts => "[" ++ String.intercalate "," parts ++ "]")
  | .vTuple xs =>
      (pack_record_id_list xs).map (fun parts => "[" ++ String.intercalate "," parts ++ "]")
  | .vDict es =>
      (pack_record_id_entries es).map
        (fun parts => "\x7b" ++ String.intercalate "," parts ++ "\x7d")
  | _ => .error .notImplementedError

/-- Elementwise `pack_record_id(e, True)` over a sequence, propagating the
first failure (as the lazily-evaluated generator inside `",".join` does). -/
def pack_record_id_list : List PyValue → Except PyErr (List String)
  | [] => .ok []
  | v :: vs => do
      let s ← pack_record_id v true
      let rest ← pack_record_id_list vs
      .ok (s :: rest)

/-- Entrywise `auto_escape(k, True) + ":" + pack_record_id(v, True)` over
a mapping's items, in insertion order. -/
def pack_record_id_entries : List (String × PyValue) → Except PyErr (List String)
  | [] => .ok []
  | (k, v) :: es => do
      let s ← pack_record_id v true
      let rest ← pack_record_id_entries es
      .ok (((auto_escape (.plain k) true).fst.data ++ ":" ++ s) :: rest)

end

/-- `TextRecordId.__pack_id__` (`thing.py`, lines 237-241): a purely
numeric id is wrapped by `EscapedString.angle`, any other id goes through
`String.auto_escape`.  Only `str`/`EscapedString` ids can reach this
method (any other shape would fail the `isnumeric` attribute lookup). -/
def TextRecordId.pack_id : PyValue → Except PyErr String
  | .vStr s =>
      .ok (if pyIsNumeric s then (EscapedString.angle (.plain s)).fst.data
           else (auto_escape (.plain s) false).fst.data)
  | .vEscapedString s =>
      .ok (if pyIsNumeric s then (EscapedString.angle (.escapedString s)).fst.data
           else (auto_escape (.escapedString s) false).fst.data)
  | _ => .error .attributeError

/-- `ObjectRecordId.__pack_id__` (`thing.py`, lines 248-257): brace-joined
`auto_escape(k) + ":" + pack_record_id(v, quote=True)` over the dict's
items in insertion order.  A non-dict id would fail the `.items()`
lookup. -/
def ObjectRecordId.pack_id : PyValue → Except PyErr String
  | .vDict es => do
      let parts ← object_pack_entries es
      .ok ("\x7b" ++ String.intercalate "," parts ++ "\x7d")
  | _ => .error .attributeError
where
  /-- Entrywise formatter for `ObjectRecordId.__pack_id__` (keys escaped
  with the default angle delimiter, values quoted). -/
  object_pack_entries : List (String × PyValue) → Except PyErr (List String)
    | [] => .ok []
    | (k, v) :: es => do
        let s ← pack_record_id v true
        let rest ← object_pack_entries es
        .ok (((auto_escape (.plain k) false).fst.data ++ ":" ++ s) :: rest)

/-- `RecordId.__pack__` (`thing.py`, lines 154-159): re-escape the stored
table attribute (a no-op on an `EscapedString`), then `":"`, then the
subclass's `__pack_id__`.  The `numeric` and `array` kinds are
unreachable: their classes are abstract and never instantiate. -/
def RecordId.pack (r : RecordIdObj) : Except PyErr String := do
  let idStr ←
    match r.kind with
    | .text => TextRecordId.pack_id r.id
    | .object => ObjectRecordId.pack_id r.id
    | .numeric => .error .typeErrorAbstract
    | .array => .error .typeErrorAbstract
  .ok ((auto_escape r.table false).fst.data ++ ":" ++ idStr)

/-- A `record_id.py` `RecordId` instance: concrete subclass and the
`value` attribute. -/
structure RecordIdV2 where
  kind : RecordIdKind
  value : PyValue
  deriving Repr

/-- `RecordId.new` (`record_id.py`, lines 29-69), the one-argument
variant: a non-numeric `str` is Text; a numeric `str` or an `int`
(including `bool`) is Numeric; `list | tuple` is Array; `dict` is Object;
anything else raises `InvalidRecordIdType`.  All four subclasses here
override their serialization methods, so every arm instantiates. -/
def RecordIdV2.new : PyValue → Except PyErr RecordIdV2
  | .vStr s =>
      if pyIsNumeric s then .ok ⟨.numeric, .vStr s⟩ else .ok ⟨.text, .vStr s⟩
  | .vBool b => .ok ⟨.numeric, .vBool b⟩
  | .vInt i => .ok ⟨.numeric, .vInt i⟩
  | .vList xs => .ok ⟨.array, .vList xs⟩
  | .vTuple xs => .ok ⟨.array, .vTuple xs⟩
  | .vDict es => .ok ⟨.object, .vDict es⟩
  | _ => .error .invalidRecordIdType

/-- `__msgpack__` of the `record_id.py` subclasses (lines 116-135):
`TextRecordId` wraps a purely numeric value with `EscapedString.angle` and
auto-escapes otherwise; `NumericRecordId` is `str(self.value)` (so a
numeric string stays as its digits).  The Array and Object cases call
`list_to_surql_str` / `dict_to_surql_str` from `data_model/surql.py`,
which is not under `src/`; no claim depends on them, so they are left
unmodelled as an error sentinel. -/
def RecordIdV2.msgpack (r : RecordIdV2) : Except PyErr String :=
  match r.kind with
  | .text =>
      match r.value with
      | .vStr s =>
          .ok (if pyIsNumeric s then (EscapedString.angle (.plain s)).fst.data
               else (auto_escape (.plain s) false).fst.data)
      | _ => .error .attributeError
  | .numeric => .ok (pyStrOfValue r.value)
  | .array => .error .notImplementedError
  | .object => .error .notImplementedError

/-- Lookup of a key among a dict's entries (first match). -/
def lookupEntry (k : String) : List (String × PyValue) → Option PyValue
  | [] => none
  | (k2, v2) :: rest => if k2 == k then some v2 else lookupEntry k rest

mutual

/-- Python `==` on id values as `RecordId.__eq__` uses it.  Mirrors
Python's value equality: a `str` and a `UserString` with the same data are
equal, `bool` equals its `int` value, sequences compare pointwise, dicts
compare as unordered key-value mappings.  Floats never inhabit a
constructed record id (`RecordId.new` rejects them), so the float case is
vacuous. -/
def pyValueEqB : PyValue → PyValue → Bool
  | .vNone, .vNone => true
  | .vBool a, .vBool b => a == b
  | .vBool a, .vInt i => (if a then (1 : Int) else 0) == i
  | .vInt i, .vBool a => i == (if a then (1 : Int) else 0)
  | .vInt a, .vInt b => a == b
  | .vStr a, .vStr b => a == b
  | .vStr a, .vEscapedString b => a == b
  | .vEscapedString a, .vStr b => a == b
  | .vEscapedString a, .vEscapedString b => a == b
  | .vList a, .vList b => pyValueListEqB a b
  | .vTuple a, .vTuple b => pyValueListEqB a b
  | .vDict a, .vDict b => a.length == b.length && pyDictLeB a b
  | _, _ => false

/-- Pointwise Python `==` on lists of values. -/
def pyValueListEqB : List PyValue → List PyValue → Bool
  | [], [] => true
  | a :: as, b :: bs => pyValueEqB a b && pyValueListEqB as bs
  | _, _ => false

/-- Every entry of the first dict is present in the second with an equal
value. -/
def pyDictLeB : List (String × PyValue) → List (String × PyValue) → Bool
  | [], _ => true
  | (k, v) :: rest, b =>
      (match lookupEntry k b with
       | some v2 => pyValueEqB v v2
       | none => false)
        && pyDictLeB rest b

end

/-- The `table` attribute of either object shape (both `Table` and
`RecordId` define it). -/
def ThingVal.tableAttr : ThingVal → PyStr
  | .tbl t => t.table
  | .rid r => r.table

/-- `Table.__eq__` (`thing.py`, lines 118-119): `self.table ==
other.table`.  Both object shapes carry a `table` attribute, and Python
string equality compares character data across `str`/`UserString`. -/
def Table.eq_body (self : PyStr) (other : ThingVal) : Except PyErr Bool :=
  .ok (self.data == other.tableAttr.data)

/-- `RecordId.__eq__` (`thing.py`, lines 148-149): `self.table ==
other.table and self.id == other.id`.  The `and` short-circuits: when the
tables differ the result is `False` without touching `other.id`; when they
agree, reading `other.id` on a `Table` raises `AttributeError`. -/
def RecordId.eq_body (self : RecordIdObj) (other : ThingVal) : Except PyErr Bool :=
  match other with
  | .tbl t =>
      if self.table.data == t.table.data then .error .attributeError else .ok false
  | .rid o =>
      .ok (self.table.data == o.table.data && pyValueEqB self.id o.id)

/-- Python `==` between data-model objects, following CPython's rich
comparison dispatch: when the right operand's type is a proper subclass of
the left's (here `RecordId` vs `Table`) the right operand's `__eq__` runs
first.  Neither body ever returns `NotImplemented` (each returns a bool or
raises), so no fallback comparison happens. -/
def pyEq (a b : ThingVal) : Except PyErr Bool :=
  match a, b with
  | .tbl t, .rid r => RecordId.eq_body r (.tbl t)
  | .tbl t, .tbl u => Table.eq_body t.table (.tbl u)
  | .rid r, other => RecordId.eq_body r other

/-- A Python `datetime.timedelta`: normalized to `0 ≤ seconds < 86400`
and `0 ≤ microseconds < 1000000`, with `days` carrying the sign. -/
structure Timedelta where
  days : Int
  seconds : Nat
  microseconds : Nat
  deriving DecidableEq, Repr

/-- The `timedelta(weeks=…, days=…, hours=…, minutes=…, seconds=…,
milliseconds=…, microseconds=…)` constructor: exact integer total in
microseconds, then floor-divmod normalization. -/
def Timedelta.make (weeks days hours minutes seconds milliseconds microseconds : Int) :
    Timedelta :=
  let total := microseconds + 1000 * milliseconds
    + 1000000 * (seconds + 60 * minutes + 3600 * hours + 86400 * (days + 7 * weeks))
  let us := Int.emod total 1000000
  let rest := Int.ediv total 1000000
  ⟨Int.ediv rest 86400, (Int.emod rest 86400).toNat, us.toNat⟩

/-- `Duration.__str__` (`data_model.py`, lines 239-247): nonzero day count
with suffix `d`, then nonzero second count with `s`, then nonzero
microsecond count with `us`, zero components omitted (the zero duration
prints as the empty string). -/
def Duration.str (t : Timedelta) : String :=
  (if t.days == 0 then "" else toString t.days ++ "d")
    ++ (if t.seconds == 0 then "" else toString t.seconds ++ "s")
    ++ (if t.microseconds == 0 then "" else toString t.microseconds ++ "us")

/-- One unit step of `Duration.from_str`: Python's
`if unit in string: value, string = string.split(unit); value = int(value)`
— a full split (every occurrence), unpacked into exactly two names
(`ValueError` otherwise), then parsed by `int`. -/
def durationUnitStep (string unit : String) : Except PyErr (Int × String) :=
  if pyContains string unit then
    match pySplit string unit with
    | [a, rest] => (pyInt a).map (fun n => (n, rest))
    | _ => .error .valueErrorUnpack
  else .ok (0, string)

/-- `Duration.from_str` (`data_model.py`, lines 249-304): sequential
suffix checks in source order — `y` raises `NotImplementedError`, then
`w`, `d`, `h`, `m`, `s`, `ms`, `us` (elif `µs`), `ns` (floor-divided by
1000 and added to microseconds; the accompanying warning diagnostic is not
tracked) — feeding the `timedelta` constructor.  Because each check is a
plain substring test, a `us`/`ms` suffix is first caught by the `s` (resp.
`m`) branch, whose `int` call then fails. -/
def Duration.from_str (string : String) : Except PyErr Timedelta :=
  if pyContains string "y" then .error .notImplementedError
  else do
    let (weeks, string) ← durationUnitStep string "w"
    let (days, string) ← durationUnitStep string "d"
    let (hours, string) ← durationUnitStep string "h"
    let (minutes, string) ← durationUnitStep string "m"
    let (seconds, string) ← durationUnitStep string "s"
    let (milis, string) ← durationUnitStep string "ms"
    let (micros, string) ←
      if pyContains string "us" then durationUnitStep string "us"
      else if pyContains string "µs" then durationUnitStep string "µs"
      else .ok ((0 : Int), string)
    let (nanos, _string) ←
      if pyContains string "ns" then
        (durationUnitStep string "ns").map (fun nr => (Int.ediv nr.1 1000, nr.2))
      else .ok ((0 : Int), string)
    .ok (Timedelta.make weeks days hours minutes seconds milis (micros + nanos))

/-- A value of the extension-scalar codec.  `uuidV`, `decimalV` and
`datetimeV` carry their canonical text (the UUID payload is its text
verbatim; a `Decimal`'s `str(...)` and a `DateTime`'s UTC ISO-8601
rendering are modelled as the carried text). -/
inductive SurValue where
  | nullV
  | uuidV (s : String)
  | decimalV (s : String)
  | durationV (t : Timedelta)
  | datetimeV (s : String)
  | thingV (t : ThingVal)
  deriving Repr

/-- `msgpack_encode` (`serialization/msgpack.py`, lines 10-27): the
tag-dispatch encoder, payloads as UTF-8 text.  The `Thing` arm calls
`thing.__msgpack__()`, but the `thing.py` classes define `__pack__` and no
`__msgpack__` method, so encoding a `Thing` raises `AttributeError`. -/
def msgpack_encode : SurValue → Except PyErr (Int × String)
  | .nullV => .ok (1, "")
  | .uuidV s => .ok (2, s)
  | .decimalV s => .ok (3, s)
  | .durationV t => .ok (4, Duration.str t)
  | .datetimeV s => .ok (5, s)
  | .thingV _ => .error .attributeError

/-- `msgpack_decode` (`serialization/msgpack.py`, lines 30-45): tag 1 is
None, 2 a UUID from text, 3 a Decimal from text with an optional `dec`
suffix stripped, 4 a Duration via `Duration.from_str`, 5 a DateTime from
ISO text, 6 a `Thing` via `Thing.from_str(s, escaped=True)`, and any
other tag raises `ValueError("Unknown msgpack extension code: …")`. -/
def msgpack_decode (code : Int) (data : String) : Except PyErr SurValue :=
  if code == 1 then .ok .nullV
  else if code == 2 then .ok (.uuidV data)
  else if code == 3 then .ok (.decimalV (pyRemoveSuffix data "dec"))
  else if code == 4 then (Duration.from_str data).map SurValue.durationV
  else if code == 5 then .ok (.datetimeV data)
  else if code == 6 then (Thing.from_str data true).map SurValue.thingV
  else .error .unknownExtensionCode

/-- Shape discriminator: is the value a Python `str`? -/
def PyValue.isStr : PyValue → Bool
  | .vStr _ => true
  | _ => false

/-- Shape discriminator: is the value a Python `dict`? -/
def PyValue.isDict : PyValue → Bool
  | .vDict _ => true
  | _ => false

/-- Shape discriminator: the shapes routed by `RecordId.new` to the
abstract (hence uninstantiable) `NumericRecordId`/`ArrayRecordId`
classes: `int`, `bool`, `list`, `tuple`. -/
def PyValue.isIntOrSeq : PyValue → Bool
  | .vInt _ => true
  | .vBool _ => true
  | .vList _ => true
  | .vTuple _ => true
  | _ => false

/-- Whether an `Except` result is a success. -/
def isOkB {α : Type} : Except PyErr α → Bool
  | .ok _ => true
  | .error _ => false

/-- When the needle does not occur, Python `split(sep, maxsplit=1)` keeps
the whole remainder as a single piece. -/
theorem pySplit1Aux_of_not_contains (sep : List Char) :
    ∀ (s acc : List Char) (fuel : Nat), s.length ≤ fuel →
      pyContainsList sep s = false →
      pySplit1Aux sep acc fuel s = [acc.reverse ++ s] := by
  intro s
  induction s with
  | nil =>
      intro acc fuel _ _
      cases fuel <;> simp [pySplit1Aux]
  | cons c rest ih =>
      intro acc fuel hf hc
      cases fuel with
      | zero => simp at hf
      | succ f =>
          rw [pyContainsList] at hc
          simp only [Bool.or_eq_false_iff] at hc
          obtain ⟨h1, h2⟩ := hc
          rw [pySplit1Aux, if_neg (by simp [h1])]
          rw [ih (c :: acc) f (by simp at hf; omega) h2]
          simp

/-- When the needle occurs, Python `split(sep, maxsplit=1)` yields exactly
two pieces. -/
theorem pySplit1Aux_of_contains (sep : List Char) (hsep : sep ≠ []) :
    ∀ (s acc : List Char) (fuel : Nat), s.length ≤ fuel →
      pyContainsList sep s = true →
      ∃ a b, pySplit1Aux sep acc fuel s = [a, b] := by
  intro s
  induction s with
  | nil =>
      intro acc fuel _ hc
      rw [pyContainsList] at hc
      simp [List.isEmpty_iff] at hc
      exact absurd hc hsep
  | cons c rest ih =>
      intro acc fuel hf hc
      cases fuel with
      | zero => simp at hf
      | succ f =>
          by_cases hp : isPrefixOfList sep (c :: rest) = true
          · rw [pySplit1Aux, if_pos hp]
            exact ⟨_, _, rfl⟩
          · rw [pySplit1Aux, if_neg hp]
            rw [pyContainsList] at hc
            simp only [Bool.or_eq_true] at hc
            rcases hc with hc | hc
            · exact absurd hc hp
            · exact ih (c :: acc) f (by simp at hf; omega) hc

/-- String-level corollary: an input without the separator splits into the
singleton of itself. -/
theorem pySplitMax1_of_not_contains (s sep : String) (h : pyContains s sep = false) :
    pySplitMax1 s sep = [s] := by
  unfold pySplitMax1
  rw [pySplit1Aux_of_not_contains sep.data s.data [] s.data.length (Nat.le_refl _) h]
  simp

/-- String-level corollary: an input containing the separator splits into
exactly two pieces. -/
theorem pySplitMax1_of_contains (s sep : String) (hsep : sep.data ≠ [])
    (h : pyContains s sep = true) :
    ∃ a b, pySplitMax1 s sep = [a, b] := by
  unfold pySplitMax1
  obtain ⟨a, b, hab⟩ :=
    pySplit1Aux_of_contains sep.data hsep s.data [] s.data.length (Nat.le_refl _) h
  exact ⟨String.mk a, String.mk b, by rw [hab]; rfl⟩

/-- Wrapping a string in angle brackets always yields a non-simple string
(the leading `⟨` is not a simple character). -/
theorem is_simple_angle_wrap (s : String) : is_simple ("⟨" ++ s ++ "⟩") = false := by
  have hd : ("⟨" ++ s ++ "⟩").data = '⟨' :: (s.data ++ ['⟩']) := by
    cases s with
    | mk d => rfl
  rw [is_simple, hd]
  simp [is_simple_char]

/-- C1 counterexample: the claim says `Thing.parse("⟨a:b⟩")` — whose only
colon lies inside angle-bracket delimiters — returns a `Table`.  On the
code it returns a `RecordId`: `Thing.from_str` checks `":" in s` with no
delimiter awareness and splits at that inner colon, producing a
`TextRecordId` with table text `⟨a` (stored escaped as `⟨⟨a⟩`) and id
`b⟩`. -/
theorem c1_delimited_colon_still_splits :
    Thing.from_str "⟨a:b⟩" false
      = .ok (.rid ⟨.text, .escapedString "⟨⟨a⟩", .vStr "b⟩"⟩) := rfl

/-- C1 (amended): `Thing.from_str` splits at the first colon regardless of
delimiters — every input containing a colon anywhere (inside `⟨…⟩` or
backticks included) parses as a Text-kind `RecordId`, never as a `Table`;
`Thing.parse("table:id")` does split at the first top-level colon as the
claim states. -/
theorem c1_any_colon_yields_record (s : String) (h : pyContains s ":" = true) :
    ∃ r, Thing.from_str s false = .ok (.rid r) ∧ r.kind = .text := by
  obtain ⟨a, b, hab⟩ := pySplitMax1_of_contains s ":" (by decide) h
  rw [Thing.from_str, if_pos h, RecordId.from_str, hab]
  exact ⟨⟨.text, table_escape a, .vStr b⟩, rfl, rfl⟩

/-- C1 witness: the amended theorem applied at the concrete input
`"table:id"`. -/
theorem c1_any_colon_yields_record_witness :
    pyContains "table:id" ":" = true
    ∧ ∃ r, Thing.from_str "table:id" false = .ok (.rid r) ∧ r.kind = .text :=
  ⟨rfl, c1_any_colon_yields_record "table:id" rfl⟩

/-- C2 (code bug evidence): a 5-microsecond duration encodes to the tag-4
payload `"5us"`, but decoding that very payload fails — `Duration.from_str`
finds `"s" in "5us"` before ever reaching its `us` branch, splits into
`["5u", ""]` and calls `int("5u")`, which raises `ValueError` — so
encode→decode is not the identity for tag 4.  Decoding the out-of-range
tag 7 does fail as the claim states. -/
theorem c2_microsecond_duration_decode_fails :
    msgpack_encode (.durationV ⟨0, 0, 5⟩) = .ok (4, "5us")
    ∧ msgpack_decode 4 "5us" = .error .valueErrorInt
    ∧ Timedelta.make 0 0 0 0 0 0 5 = ⟨0, 0, 5⟩
    ∧ msgpack_decode 7 "" = .error .unknownExtensionCode :=
  ⟨rfl, rfl, rfl, rfl⟩

/-- C3 counterexample: the claim says `RecordId.new(table, v)` succeeds
for every `int` and fails with `InvalidRecordId` for every `bool`.  On the
code both raise `TypeError`: the `int` arm (which `bool` also matches)
instantiates `NumericRecordId`, which never overrides the abstract
`__pack_id__` and therefore cannot be instantiated. -/
theorem c3_int_and_bool_raise_type_error :
    RecordId.new "table" (.vInt 123) = .error .typeErrorAbstract
    ∧ RecordId.new "table" (.vBool true) = .error .typeErrorAbstract :=
  ⟨rfl, rfl⟩

/-- C3 (amended): `RecordId.new` succeeds exactly for `str` ids (Text
kind) and `dict` ids (Object kind); `int`, `bool`, `list` and `tuple` ids
raise `TypeError`, because `NumericRecordId` and `ArrayRecordId` do not
override the abstract `__pack_id__` and cannot be instantiated
(contradicting the function's own doctests); every remaining shape
(float, None, `EscapedString`) raises `InvalidRecordId`.  No object is
produced on any failure. -/
theorem c3_new_ok_iff_str_or_dict (t : String) (v : PyValue) :
    (isOkB (RecordId.new t v) = (v.isStr || v.isDict))
    ∧ (RecordId.new t v = .error .typeErrorAbstract ↔ v.isIntOrSeq = true)
    ∧ (RecordId.new t v = .error .invalidRecordId
        ↔ (v.isStr || v.isDict || v.isIntOrSeq) = false) := by
  cases v <;>
    simp [RecordId.new, isOkB, PyValue.isStr, PyValue.isDict, PyValue.isIntOrSeq]

/-- C4 counterexample: the claim says `RecordId.new("example", "123")`
yields a Numeric-kind record id with wire literal `"example:123"`.  On the
code the string arm wins: the result is a `TextRecordId` (Text kind, not
Numeric), and its wire literal delimiter-wraps the digit-only id to
`"example:⟨123⟩"`. -/
theorem c4_digit_string_is_text_kind :
    RecordId.new "example" (.vStr "123") = .ok ⟨.text, .plain "example", .vStr "123"⟩
    ∧ RecordIdKind.text ≠ RecordIdKind.numeric
    ∧ RecordId.pack ⟨.text, .plain "example", .vStr "123"⟩ = .ok "example:⟨123⟩"
    ∧ "example:⟨123⟩" ≠ "example:123" :=
  ⟨rfl, by decide, rfl, by decide⟩

/-- C4 (amended): through the two-argument `RecordId.new` of `thing.py`, a
digit-only string id is Text kind and its wire literal delimiter-wraps the
digits (`"example:⟨123⟩"`); the Numeric inference for digit-only strings
exists only in `record_id.py`'s one-argument `RecordId.new`, where
`new("123")` is Numeric kind and serializes to the bare digits `"123"`. -/
theorem c4_digit_string_literals :
    RecordId.pack ⟨.text, table_escape "example", .vStr "123"⟩ = .ok "example:⟨123⟩"
    ∧ RecordIdV2.new (.vStr "123") = .ok ⟨.numeric, .vStr "123"⟩
    ∧ RecordIdV2.msgpack ⟨.numeric, .vStr "123"⟩ = .ok "123" :=
  ⟨rfl, rfl, rfl⟩

/-- C5: a Text-kind record id holding a purely numeric string is
delimiter-wrapped by `TextRecordId.__pack_id__`: the id part of the wire
literal is `⟨s⟩` for every digit-only `s`, and concretely an id of `"42"`
renders inside the full literal as `"example:⟨42⟩"`, never bare. -/
theorem c5_numeric_text_id_is_delimited (s : String) (h : pyIsNumeric s = true) :
    TextRecordId.pack_id (.vStr s) = .ok ("⟨" ++ s ++ "⟩")
    ∧ RecordId.pack ⟨.text, table_escape "example", .vStr "42"⟩ = .ok "example:⟨42⟩" := by
  refine ⟨?_, rfl⟩
  simp [TextRecordId.pack_id, h, EscapedString.angle, PyStr.data]

/-- C5 witness: the theorem applied at the digit-only id `"42"`. -/
theorem c5_numeric_text_id_is_delimited_witness :
    pyIsNumeric "42" = true ∧ TextRecordId.pack_id (.vStr "42") = .ok "⟨42⟩" :=
  ⟨rfl, (c5_numeric_text_id_is_delimited "42" rfl).1⟩

/-- C7: `RecordId.new("example", {"foo": "bar"})` is Object kind, and its
wire literal is exactly `example:{foo:"bar"}` — key escaped bare, leaf
string value double-quoted, inside braces after the escaped table name. -/
theorem c7_object_record_literal :
    RecordId.new "example" (.vDict [("foo", .vStr "bar")])
      = .ok ⟨.object, .plain "example", .vDict [("foo", .vStr "bar")]⟩
    ∧ RecordId.pack ⟨.object, .plain "example", .vDict [("foo", .vStr "bar")]⟩
      = .ok "example:\x7bfoo:\"bar\"\x7d" :=
  ⟨rfl, rfl⟩

/-- C8: `Duration.__str__` emits only day/second/microsecond buckets with
suffixes `d`/`s`/`us` in that order, omitting zero components: 90 seconds
normalizes to `(days 0, seconds 90, microseconds 0)` and encodes to the
tag-4 payload `"90s"` (not a minute-based form), and decoding `"90s"`
yields the 90-second duration back. -/
theorem c8_duration_90s_roundtrip :
    Timedelta.make 0 0 0 0 90 0 0 = ⟨0, 90, 0⟩
    ∧ Duration.str ⟨0, 90, 0⟩ = "90s"
    ∧ msgpack_encode (.durationV ⟨0, 90, 0⟩) = .ok (4, "90s")
    ∧ Duration.from_str "90s" = .ok ⟨0, 90, 0⟩
    ∧ msgpack_decode 4 "90s" = .ok (.durationV ⟨0, 90, 0⟩) :=
  ⟨rfl, rfl, rfl, rfl, rfl⟩

/-- C6 counterexample: the claim says `RecordId.from_str` raises
`InvalidRecordIdString` when the id side is empty.  On the code `"a:"`
splits into `["a", ""]`, which matches the two-element pattern, and a
`TextRecordId` with empty id text is constructed instead of an error. -/
theorem c6_empty_id_side_accepted :
    RecordId.from_str "a:" false = .ok ⟨.text, .plain "a", .vStr ""⟩ := rfl

/-- C6 (amended): `RecordId.from_str` raises `InvalidRecordIdString`
exactly when the input contains no colon; inputs with empty table or id
sides are accepted and produce a record id.  The emptiness check the claim
describes lives only in the separate validator `is_record_id_str`, which
does reject `"a:"`. -/
theorem c6_error_iff_no_colon (s : String) :
    (RecordId.from_str s false = .error .invalidRecordIdString
      ↔ pyContains s ":" = false)
    ∧ is_record_id_str "a:" = false := by
  refine ⟨⟨?_, ?_⟩, rfl⟩
  · intro h
    by_contra hc
    rw [Bool.not_eq_false] at hc
    obtain ⟨a, b, hab⟩ := pySplitMax1_of_contains s ":" (by decide) hc
    rw [RecordId.from_str, hab] at h
    simp [RecordId.new] at h
  · intro h
    rw [RecordId.from_str, pySplitMax1_of_not_contains s ":" h]

/-- C9 counterexample: the claim says re-applying `auto_escape` to an
already-escaped string emits a warning.  On the code the composition
`auto_escape(auto_escape("a-b"))` emits none: the first application
returns an `EscapedString` instance, and `EscapedString.angle` returns
such instances unchanged without ever reaching the warning check. -/
theorem c9_reescape_does_not_warn :
    (auto_escape ((auto_escape (.plain "a-b") false).fst) false).snd = false := rfl

/-- C9 (amended): `auto_escape` is idempotent — for every string `s`,
re-applying it to its own result returns that result unchanged with NO
warning (the `EscapedString` instance check short-circuits), so content is
never double-escaped through composition.  The warning fires only when a
plain `str` already of the form `⟨…⟩` is passed directly, and then the
string IS wrapped a second time. -/
theorem c9_auto_escape_idempotent (s : String) :
    auto_escape ((auto_escape (.plain s) false).fst) false
      = ((auto_escape (.plain s) false).fst, false)
    ∧ auto_escape (.plain "⟨x⟩") false = (.escapedString "⟨⟨x⟩⟩", true) := by
  refine ⟨?_, rfl⟩
  cases h : is_simple s with
  | true => simp [auto_escape, PyStr.data, h]
  | false =>
      simp [auto_escape, PyStr.data, h, EscapedString.angle, is_simple_angle_wrap]

/-- C10 counterexample: the claim says `Table(t) == RecordId.new(t, v)`
evaluates to `True`.  At `t = "t"`, `v = "id"` it raises `AttributeError`:
because `RecordId` is a proper subclass of `Table` overriding `__eq__`,
CPython gives the right operand's `RecordId.__eq__` priority, and with
equal tables it reads the missing `other.id` attribute of the `Table`. -/
theorem c10_table_eq_record_raises :
    RecordId.new "t" (.vStr "id") = .ok ⟨.text, .plain "t", .vStr "id"⟩
    ∧ pyEq (.tbl (Table.new "t")) (.rid ⟨.text, .plain "t", .vStr "id"⟩)
        = .error .attributeError :=
  ⟨rfl, rfl⟩

/-- C10 (amended): equality between `Table` and `RecordId` objects is
still neither symmetric nor total, but both mixed comparisons raise: for
every table name `t` and every id accepted by `RecordId.new`, BOTH
`Table(t) == RecordId.new(t, v)` and the reversed comparison raise
`AttributeError`, because Python's subclass-priority rule runs
`RecordId.__eq__` first in both orders and it reads `other.id`, which
`Table` lacks.  `Table.__eq__` itself, invoked directly, does compare only
the `table` attribute and returns `True` there. -/
theorem c10_mixed_eq_raises (t : String) (v : PyValue) (r : RecordIdObj)
    (h : RecordId.new t v = .ok r) :
    pyEq (.tbl (Table.new t)) (.rid r) = .error .attributeError
    ∧ pyEq (.rid r) (.tbl (Table.new t)) = .error .attributeError
    ∧ Table.eq_body (Table.new t).table (.rid r) = .ok true := by
  have htab : r.table = table_escape t := by
    cases v <;> simp [RecordId.new] at h <;> exact congrArg RecordIdObj.table h.symm
  refine ⟨?_, ?_, ?_⟩ <;>
    simp [pyEq, RecordId.eq_body, Table.eq_body, Table.new, ThingVal.tableAttr, htab]

/-- C10 witness: the amended theorem applied at `t = "t"`, `v = "i"`. -/
theorem c10_mixed_eq_raises_witness :
    RecordId.new "t" (.vStr "i") = .ok ⟨.text, .plain "t", .vStr "i"⟩
    ∧ pyEq (.rid ⟨.text, .plain "t", .vStr "i"⟩) (.tbl (Table.new "t"))
        = .error .attributeError :=
  ⟨rfl, (c10_mixed_eq_raises "t" (.vStr "i") ⟨.text, .plain "t", .vStr "i"⟩ rfl).2.1⟩
